import Mathlib

/-!
Verification of the reconciliation pipeline of `analyzer.py`
(accounting-inventory-esunsate): the field tables, pass-2 schema
validation with currency conversion, and the pass-3 FIFO inventory /
reference-ledger engine.

Modelling conventions, kept uniform through the file:
* Python `dict`s become insertion-ordered association lists (`Dict`);
  an update keeps the position of an existing key and appends a new one,
  exactly like CPython dicts.
* Money becomes exact rationals.  Every amount exercised by the claims
  (integers, tenths, percentages of integers) is exactly representable
  in the script's IEEE doubles, so the rational arithmetic agrees with
  the Python float arithmetic on these inputs.
* Every raising Python operation becomes an `Except RecError` value;
  each `RecError` constructor corresponds to one raise site (or to one
  implicitly raising operation such as `d[k]` on a missing key).
* `re.match` is a prefix match; the regexes of the script are modelled
  by the equivalent take-leading-run operations on the character list.
* The exchange-rate provider (a network fetch plus on-disk cache in the
  script) is out of scope per the design and enters as an abstract
  `Rates` function from date and currency code to an optional rate.
-/

/-- Errors raised by `analyzer.py`, one constructor per raise site or
implicitly raising operation (`keyError` for `d[k]` on a missing key,
`indexError` for `l[0]` on an empty list, `attributeError` for
`None.group(...)` in `remove_suffix`, `floatFormat` for a failing
`float(...)`). -/
inductive RecError where
  | invalidAction
  | missingField
  | wrongDateFormat
  | wrongDateValue
  | nonChronologicalDate
  | invalidTypeValue
  | invalidProjectValue
  | invalidItemsValue
  | unrecognizedField
  | invalidCurrencyLine
  | invalidQuantityValue
  | materialFieldsMissing
  | invalidCurrencyFormat
  | invalidCurrency
  | floatFormat
  | invalidItemsFormat
  | keyError
  | indexError
  | attributeError
  | duplicateRef
  | overRelease
  deriving DecidableEq

instance {ε α : Type} [DecidableEq ε] [DecidableEq α] : DecidableEq (Except ε α)
  | .error e, .error f =>
    if h : e = f then isTrue (h ▸ rfl) else isFalse (fun hh => h (Except.error.inj hh))
  | .error _, .ok _ => isFalse (fun hh => Except.noConfusion hh)
  | .ok _, .error _ => isFalse (fun hh => Except.noConfusion hh)
  | .ok x, .ok y =>
    if h : x = y then isTrue (h ▸ rfl) else isFalse (fun hh => h (Except.ok.inj hh))

/-- A Python `dict` with string keys: an insertion-ordered association list. -/
abbrev Dict (α : Type) := List (String × α)

/-- Python `d.get(k)`: first binding of `k`, `none` when absent. -/
def dictFind {α : Type} (d : Dict α) (k : String) : Option α :=
  match d with
  | [] => none
  | kv :: rest => if kv.1 = k then some kv.2 else dictFind rest k

/-- Python `k in d`. -/
def dictContains {α : Type} (d : Dict α) (k : String) : Bool :=
  (dictFind d k).isSome

/-- Python `d[k] = v`: overwrite in place when the key exists (keeping its
position), append at the end otherwise. -/
def dictSet {α : Type} (d : Dict α) (k : String) (v : α) : Dict α :=
  match d with
  | [] => [(k, v)]
  | kv :: rest => if kv.1 = k then (kv.1, v) :: rest else kv :: dictSet rest k v

/-- Python `d.pop(k)`: drop the binding of `k`. -/
def dictErase {α : Type} (d : Dict α) (k : String) : Dict α :=
  match d with
  | [] => []
  | kv :: rest => if kv.1 = k then rest else kv :: dictErase rest k

/-- Sum of all values of a rational-valued dict (the total the report
prints as the per-reference breakdown). -/
def sumValues (d : Dict ℚ) : ℚ := (d.map (fun kv => kv.2)).sum

/-! ### Character and string helpers

`analyzer.py` works on Python `str`; the helpers below operate on the
underlying character list so that everything reduces mechanically. -/

/-- Value of a digit string, most significant first (`int(...)` on an
all-digit string). -/
def digitsToNat (cs : List Char) : Nat := cs.foldl (fun n c => n * 10 + (c.toNat - 48)) 0

/-- Python `str.strip()`: drop leading and trailing whitespace. -/
def pyStripList (cs : List Char) : List Char :=
  ((cs.dropWhile Char.isWhitespace).reverse.dropWhile Char.isWhitespace).reverse

/-- Python `str.strip()` on a string. -/
def pyStrip (s : String) : String := String.mk (pyStripList s.data)

/-- Python `<` on strings: lexicographic comparison by code point. -/
def charListLt : List Char → List Char → Bool
  | _, [] => false
  | [], _ :: _ => true
  | a :: as, b :: bs =>
    if a.toNat < b.toNat then true
    else if b.toNat < a.toNat then false
    else charListLt as bs

/-- Python `s < t` on strings. -/
def pyStrLt (s t : String) : Bool := charListLt s.data t.data

/-- Python `str.split()` (no argument): split on runs of whitespace,
producing no empty tokens.  The accumulator holds the current token
reversed. -/
def splitWSAux : List Char → List Char → List String
  | [], acc => if acc = [] then [] else [String.mk acc.reverse]
  | c :: cs, acc =>
    if c.isWhitespace then
      if acc = [] then splitWSAux cs []
      else String.mk acc.reverse :: splitWSAux cs []
    else splitWSAux cs (c :: acc)

/-- Python `str.split()` on a string. -/
def splitWS (s : String) : List String := splitWSAux s.data []

/-- Split a character list at every dot (used to model `float(...)`). -/
def splitDots : List Char → List (List Char)
  | [] => [[]]
  | c :: cs =>
    if c = '.' then [] :: splitDots cs
    else
      match splitDots cs with
      | [] => [[c]]
      | g :: gs => (c :: g) :: gs

/-- Python `float(...)` on an unsigned fixed-point decimal: digit runs
around at most one dot, at least one digit overall (`"5"`, `"5."`,
`".5"`, `"12.50"`; `"1.2.3"`, `"."` and `""` fail).  This covers every
string the `[0-9.]+` regex groups of the script can produce; the
exponent/infinity forms of Python floats are never produced there. -/
def parseUnsigned (cs : List Char) : Option ℚ :=
  match splitDots cs with
  | [intp] =>
    if intp ≠ [] ∧ intp.all Char.isDigit then some ((digitsToNat intp : ℚ)) else none
  | [intp, frac] =>
    if (intp ≠ [] ∨ frac ≠ []) ∧ intp.all Char.isDigit ∧ frac.all Char.isDigit then
      some ((digitsToNat intp : ℚ) + (digitsToNat frac : ℚ) / ((10 : ℚ) ^ frac.length))
    else none
  | _ => none

/-- Python `float(...)`: optional surrounding whitespace and a single
sign in front of an unsigned fixed-point decimal. -/
def parsePyFloat (s : String) : Option ℚ :=
  match pyStripList s.data with
  | '-' :: rest => (parseUnsigned rest).map (fun q => -q)
  | '+' :: rest => parseUnsigned rest
  | cs => parseUnsigned cs

/-- Python `int(...)` in base 10: optional surrounding whitespace and a
single sign in front of a digit run. -/
def parsePyInt (s : String) : Option Int :=
  match pyStripList s.data with
  | '-' :: rest =>
    if rest ≠ [] ∧ rest.all Char.isDigit then some (-(digitsToNat rest : Int)) else none
  | '+' :: rest =>
    if rest ≠ [] ∧ rest.all Char.isDigit then some ((digitsToNat rest : Int)) else none
  | cs =>
    if cs ≠ [] ∧ cs.all Char.isDigit then some ((digitsToNat cs : Int)) else none

/-- Model of `re.match("([A-Za-z]{3})([0-9.]+)", ...)`: three letters followed by
a nonempty run of digits/dots; anything after the run is ignored
(prefix match).  Returns the currency code and the numeric run. -/
def matchCurrency (cs : List Char) : Option (String × List Char) :=
  match cs with
  | a :: b :: c :: rest =>
    if a.isAlpha && b.isAlpha && c.isAlpha then
      let digits := rest.takeWhile (fun ch => ch.isDigit || ch = '.')
      if digits = [] then none else some (String.mk [a, b, c], digits)
    else none
  | _ => none

/-- Model of `re.match("([A-Za-z]+)([0-9]+)", ...)`: a nonempty letter run, then
a nonempty digit run; anything after is ignored (prefix match). -/
def matchItem (cs : List Char) : Option (String × Nat) :=
  let letters := cs.takeWhile Char.isAlpha
  let rest := cs.dropWhile Char.isAlpha
  let digits := rest.takeWhile Char.isDigit
  if letters = [] ∨ digits = [] then none
  else some (String.mk letters, digitsToNat digits)

/-- Python `str.upper()` (the script only ever upper-cases ASCII
currency codes). -/
def toUpperStr (s : String) : String := String.mk (s.data.map Char.toUpper)

/-- Python `fee.endswith("%")`. -/
def strLastIsPercent (s : String) : Bool :=
  match s.data.getLast? with
  | some c => c == '%'
  | none => false

/-- Python `fee[:-1]`. -/
def dropLastStr (s : String) : String := String.mk s.data.dropLast

/-- Model of `re.match("([0-9]{4})-([0-9]{2})-([0-9]{2})", ...)`: a prefix match,
so trailing characters after the ten date characters are ignored. -/
def parseDate10 (s : String) : Option (Nat × Nat × Nat) :=
  match s.data with
  | y1 :: y2 :: y3 :: y4 :: h1 :: m1 :: m2 :: h2 :: d1 :: d2 :: _ =>
    if (y1.isDigit && y2.isDigit && y3.isDigit && y4.isDigit) ∧ h1 = '-' ∧
       (m1.isDigit && m2.isDigit) ∧ h2 = '-' ∧ (d1.isDigit && d2.isDigit) then
      some (digitsToNat [y1, y2, y3, y4], digitsToNat [m1, m2], digitsToNat [d1, d2])
    else none
  | _ => none

/-- Gregorian leap year, as `datetime` uses. -/
def isLeap (y : Nat) : Bool := y % 4 = 0 && (y % 100 != 0 || y % 400 = 0)

/-- Days in a month, as `datetime` uses. -/
def daysInMonth (y m : Nat) : Nat :=
  if m = 2 then (if isLeap y then 29 else 28)
  else if m = 4 ∨ m = 6 ∨ m = 9 ∨ m = 11 then 30
  else 31

/-- Condition for `datetime.datetime(y, m, d)` to succeed: year in `MINYEAR..MAXYEAR`,
month and day in range. -/
def validDate (y m d : Nat) : Bool :=
  decide (1 ≤ y) && decide (y ≤ 9999) && decide (1 ≤ m) && decide (m ≤ 12) &&
  decide (1 ≤ d) && decide (d ≤ daysInMonth y m)

/-! ### The source functions of `analyzer.py` -/

/-- Abstract exchange-rate provider: the day's USD-based table, as a
function from date string and (upper-case) currency code to an optional
rate.  The script's fetch-and-cache plumbing is the out-of-scope
external collaborator. -/
abbrev Rates := String → String → Option ℚ

/-- Function `convert_to_usd(date, amount)` of `analyzer.py`. -/
def convert_to_usd (rates : Rates) (date : String) (amount0 : String) : Except RecError ℚ :=
  let amount := pyStrip amount0
  match (if amount = "0" then Except.ok (("USD" : String), (0 : ℚ))
         else match matchCurrency amount.data with
           | none => Except.error .invalidCurrencyFormat
           | some cn =>
             match parseUnsigned cn.2 with
             | none => Except.error .floatFormat
             | some v => Except.ok (cn.1, v)) with
  | .error e => .error e
  | .ok cv =>
    let currency := if cv.1 = "RMB" then "CNY" else cv.1
    if toUpperStr currency = "USD" then Except.ok cv.2
    else
      match rates date (toUpperStr currency) with
      | none => Except.error .invalidCurrency
      | some r => Except.ok (cv.2 / r)

/-- Function `compute_value(date, amount, fee, income)` of `analyzer.py`: a
percentage fee is applied to the converted amount, any other fee is
converted independently; the fee is subtracted for income and added for
expense. -/
def compute_value (rates : Rates) (date amount fee : String) (income : Bool) : Except RecError ℚ :=
  match convert_to_usd rates date amount with
  | .error e => .error e
  | .ok amount_value =>
    match (if strLastIsPercent fee then
             match parsePyFloat (dropLastStr fee) with
             | none => Except.error .floatFormat
             | some p => Except.ok (amount_value * p / 100)
           else convert_to_usd rates date fee) with
    | .error e => .error e
    | .ok fee_value =>
      Except.ok (if income then amount_value - fee_value else amount_value + fee_value)

/-- Loop of `parse_items`: later duplicates of an item name overwrite
the earlier quantity, as Python dict assignment does. -/
def parse_items_go : List String → Dict Nat → Except RecError (Dict Nat)
  | [], acc => .ok acc
  | tok :: toks, acc =>
    match matchItem tok.data with
    | none => .error .invalidItemsFormat
    | some nq => parse_items_go toks (dictSet acc nq.1 nq.2)

/-- Function `parse_items(items)` of `analyzer.py`: whitespace-separated
`<name><quantity>` tokens into a dict. -/
def parse_items (items : String) : Except RecError (Dict Nat) :=
  parse_items_go (splitWS items) []

/-- Function `remove_suffix(s)` of `analyzer.py`:
`re.match("([0-9-_]+)[A-Za-z]*", s).group(1) if s != "" else ""`.
The group is the maximal leading run of digits/hyphens/underscores; on a
nonempty string that starts with any other character `re.match` returns
`None` and `.group(1)` raises `AttributeError`. -/
def remove_suffix (s : String) : Except RecError String :=
  if s = "" then .ok ("")
  else
    if s.data.takeWhile (fun c => c.isDigit || c == '-' || c == '_') = [] then
      .error .attributeError
    else .ok (String.mk (s.data.takeWhile (fun c => c.isDigit || c == '-' || c == '_')))

/-! ### The fixed tables -/

/-- Table `AVAILABLE_ACTIONS`: required and optional fields per action. -/
def AVAILABLE_ACTIONS : Dict (List String × List String) :=
  [("OBTAIN", (["DATE", "TYPE", "PROJECT", "QUANTITY", "COSTEACH"], ["BATCH", "REMARKS"])),
   ("RESERVE", (["DATE", "REF", "ITEMS"], ["REMARKS"])),
   ("RELEASE", (["DATE", "TYPE", "REF", "ITEMS"], ["REMARKS"])),
   ("INCOME", (["DATE", "TYPE", "AMOUNT", "FEE"], ["REF", "REMARKS"])),
   ("EXPENSE", (["DATE", "TYPE", "AMOUNT", "FEE"], ["PROJECT", "BATCH", "SUPPLIER", "REF", "REMARKS"]))]

/-- Table `AVAILABLE_TYPES`: allowed `TYPE` values per action (no entry for
RESERVE, exactly as in the source). -/
def AVAILABLE_TYPES : Dict (List String) :=
  [("OBTAIN", ["assembled", "returned", "repaired"]),
   ("RELEASE", ["sales", "gift", "replacement", "giveaway", "scrap"]),
   ("INCOME", ["sales", "donation"]),
   ("EXPENSE", ["R&D", "material", "shipping", "replacement", "reimbursement", "refund"])]

/-- Table `AVAILABLE_ITEMS`: the configured item/project names. -/
def AVAILABLE_ITEMS : List String := ["ilonena", "ilomusiali"]

/-! ### Pass 2 — validation and enrichment

A raw entry is the pass-1 output: the parsed field dict, including the
`"ACTION"` key.  Pass 2 validates it against the tables, fills optional
fields with `""`, converts `COSTEACH`, coerces `QUANTITY` and computes
`VALUE`, producing the enriched entry consumed by pass 3. -/

/-- A pass-1 entry: field name to raw string value, `"ACTION"` included. -/
abbrev RawEntry := Dict String

/-- A validated, enriched entry.  Fields that an action does not have
are `""` (resp. `0`); pass 3 never reads a field its action does not
guarantee, so this is observationally the same as the Python dict. -/
structure VEntry where
  action : String
  date : String
  type : String
  ref : String
  project : String
  items : String
  remarks : String
  quantity : Int
  costeach : ℚ
  value : ℚ
  deriving DecidableEq

/-- Python `line[k]`: checked dict access, `KeyError` when absent. -/
def getField (line : RawEntry) (k : String) : Except RecError String :=
  match dictFind line k with
  | none => .error .keyError
  | some v => .ok v

/-- The required-field loop of pass 2. -/
def checkRequired : List String → RawEntry → Except RecError Unit
  | [], _ => .ok ()
  | f :: fs, line =>
    if dictContains line f then checkRequired fs line else .error .missingField

/-- The `DATE` checks of pass 2: format regex, `datetime` validity, then
monotonicity against the previous entry's raw date string.  Returns the
raw date string (the new `last_date`). -/
def checkDate (last_date : String) (line : RawEntry) : Except RecError String :=
  match getField line ("DATE") with
  | .error e => .error e
  | .ok dateStr =>
    match parseDate10 dateStr with
    | none => .error .wrongDateFormat
    | some ymd =>
      if validDate ymd.1 ymd.2.1 ymd.2.2 then
        if pyStrLt dateStr last_date then .error .nonChronologicalDate
        else .ok dateStr
      else .error .wrongDateValue

/-- The `TYPE` check of pass 2.  `AVAILABLE_TYPES[action]` is a plain
dict access: an action without a types entry (RESERVE) raises
`KeyError` here when a `TYPE` field is present. -/
def checkTypeField (action : String) (line : RawEntry) : Except RecError Unit :=
  if dictContains line ("TYPE") then
    match getField line ("TYPE") with
    | .error e => .error e
    | .ok t =>
      match dictFind AVAILABLE_TYPES action with
      | none => .error .keyError
      | some allowed => if allowed.contains t then .ok () else .error .invalidTypeValue
  else .ok ()

/-- The `PROJECT` check of pass 2. -/
def checkProjectField (line : RawEntry) : Except RecError Unit :=
  if dictContains line ("PROJECT") then
    match getField line ("PROJECT") with
    | .error e => .error e
    | .ok p => if AVAILABLE_ITEMS.contains p then .ok () else .error .invalidProjectValue
  else .ok ()

/-- The `ITEMS` check of pass 2: parse and require every item name to be
a configured item. -/
def checkItemsField (line : RawEntry) : Except RecError Unit :=
  if dictContains line ("ITEMS") then
    match getField line ("ITEMS") with
    | .error e => .error e
    | .ok itemsStr =>
      match parse_items itemsStr with
      | .error e => .error e
      | .ok parsed =>
        if parsed.any (fun nq => !(AVAILABLE_ITEMS.contains nq.1)) then
          .error .invalidItemsValue
        else .ok ()
  else .ok ()

/-- Fill each absent optional field with `""`. -/
def fillOptional (fs : List String) (line : RawEntry) : RawEntry :=
  fs.foldl (fun l f => if dictContains l f then l else dictSet l f ("")) line

/-- The unrecognized-field loop of pass 2: every key of the (filled)
entry must be `"ACTION"` or in the required/optional set. -/
def checkRecognized : RawEntry → List String → Except RecError Unit
  | [], _ => .ok ()
  | kv :: rest, allowed =>
    if allowed.contains kv.1 then checkRecognized rest allowed
    else .error .unrecognizedField

/-- The `COSTEACH` conversion of pass 2; any conversion failure is replaced
by the catch-all "Invalid currency in the following line" error. -/
def getCosteach (rates : Rates) (date : String) (line : RawEntry) : Except RecError ℚ :=
  if dictContains line ("COSTEACH") then
    match getField line ("COSTEACH") with
    | .error e => .error e
    | .ok ce =>
      match convert_to_usd rates date ce with
      | .error _ => .error .invalidCurrencyLine
      | .ok v => .ok v
  else .ok 0

/-- The `QUANTITY` coercion of pass 2; an unparsable value is replaced by
the "Invalid qualtity value" error. -/
def getQuantity (line : RawEntry) : Except RecError Int :=
  if dictContains line ("QUANTITY") then
    match getField line ("QUANTITY") with
    | .error e => .error e
    | .ok q =>
      match parsePyInt q with
      | none => .error .invalidQuantityValue
      | some n => .ok n
  else .ok 0

/-- The `VALUE` computation of pass 2 (INCOME and EXPENSE only); errors from
`compute_value` propagate unchanged, exactly as in the source. -/
def getValue (rates : Rates) (date action : String) (line : RawEntry) : Except RecError ℚ :=
  if action = "INCOME" then
    match getField line ("AMOUNT") with
    | .error e => .error e
    | .ok a =>
      match getField line ("FEE") with
      | .error e => .error e
      | .ok f => compute_value rates date a f true
  else if action = "EXPENSE" then
    match getField line ("AMOUNT") with
    | .error e => .error e
    | .ok a =>
      match getField line ("FEE") with
      | .error e => .error e
      | .ok f => compute_value rates date a f false
  else .ok 0

/-- Stage C of pass 2: a material EXPENSE must carry nonempty `PROJECT`,
`BATCH` and `SUPPLIER` (all present after optional filling). -/
def checkMaterial (action : String) (line : RawEntry) : Except RecError Unit :=
  if action = "EXPENSE" then
    match getField line ("TYPE") with
    | .error e => .error e
    | .ok t =>
      if t = "material" then
        match getField line ("PROJECT") with
        | .error e => .error e
        | .ok p =>
          match getField line ("BATCH") with
          | .error e => .error e
          | .ok b =>
            match getField line ("SUPPLIER") with
            | .error e => .error e
            | .ok su =>
              if p = "" ∨ b = "" ∨ su = "" then .error .materialFieldsMissing else .ok ()
      else .ok ()
  else .ok ()

/-- Read a string field of the filled entry, `""` when absent (pass 3
only reads fields its action guarantees, so the default is never
observed there). -/
def fieldD (line : RawEntry) (k : String) : String := (dictFind line k).getD ("")

/-- Package the validated entry for pass 3. -/
def buildVEntry (action : String) (line : RawEntry) (quantity : Int)
    (costeach value : ℚ) : VEntry :=
  { action := action, date := fieldD line ("DATE"), type := fieldD line ("TYPE"),
    ref := fieldD line ("REF"), project := fieldD line ("PROJECT"),
    items := fieldD line ("ITEMS"), remarks := fieldD line ("REMARKS"),
    quantity := quantity, costeach := costeach, value := value }

/-- The pass-2 body for one entry, in the exact order of the source:
action table, required fields, date checks, `TYPE`, `PROJECT`, `ITEMS`,
fill optionals, unrecognized fields, `COSTEACH`, `QUANTITY`, `VALUE`,
material rule. -/
def validateEntry (rates : Rates) (last_date : String) (line : RawEntry) :
    Except RecError (VEntry × String) :=
  match getField line ("ACTION") with
  | .error e => .error e
  | .ok action =>
    match dictFind AVAILABLE_ACTIONS action with
    | none => .error .invalidAction
    | some reqopt =>
      match checkRequired reqopt.1 line with
      | .error e => .error e
      | .ok _ =>
        match checkDate last_date line with
        | .error e => .error e
        | .ok dateStr =>
          match checkTypeField action line with
          | .error e => .error e
          | .ok _ =>
            match checkProjectField line with
            | .error e => .error e
            | .ok _ =>
              match checkItemsField line with
              | .error e => .error e
              | .ok _ =>
                let filled := fillOptional reqopt.2 line
                match checkRecognized filled ("ACTION" :: (reqopt.1 ++ reqopt.2)) with
                | .error e => .error e
                | .ok _ =>
                  match getCosteach rates dateStr filled with
                  | .error e => .error e
                  | .ok costeach =>
                    match getQuantity filled with
                    | .error e => .error e
                    | .ok quantity =>
                      match getValue rates dateStr action filled with
                      | .error e => .error e
                      | .ok value =>
                        match checkMaterial action filled with
                        | .error e => .error e
                        | .ok _ =>
                          .ok (buildVEntry action filled quantity costeach value, dateStr)

/-- Pass 2 over the whole table, threading `last_date`. -/
def validateAllFrom (rates : Rates) (last_date : String) :
    List RawEntry → Except RecError (List VEntry)
  | [] => .ok []
  | l :: ls =>
    match validateEntry rates last_date l with
    | .error e => .error e
    | .ok vd =>
      match validateAllFrom rates vd.2 ls with
      | .error e => .error e
      | .ok vs => .ok (vd.1 :: vs)

/-- Pass 2, starting from the source's `last_date = "0000-00-00"`. -/
def validateAll (rates : Rates) (raws : List RawEntry) : Except RecError (List VEntry) :=
  validateAllFrom rates ("0000-00-00") raws

/-! ### Pass 3 — the reconciliation state machine -/

/-- One `reserved_items_counter[ref]` record: outstanding quantity per
item (an `int` that the RELEASE path decrements), plus the remarks. -/
structure Reservation where
  items : Dict Int
  remarks : String
  deriving DecidableEq

/-- The pass-3 state: FIFO cost queues, the reference ledger, the
reservation records and the two aggregates. -/
structure RecState where
  item_cost : Dict (List ℚ)
  ref_value : Dict ℚ
  reserved_items_counter : Dict Reservation
  cash_flow : ℚ
  profit : ℚ
  deriving DecidableEq

/-- The initial pass-3 state: an empty cost queue per configured item,
the empty-reference ledger bucket, and zeroed aggregates. -/
def initState : RecState :=
  { item_cost := AVAILABLE_ITEMS.map (fun p => (p, [])),
    ref_value := [(("") , 0)],
    reserved_items_counter := [],
    cash_flow := 0,
    profit := 0 }

/-- The inner unit loop of `take_item_and_compute_cost`: pop `qty` costs
from the front of `name`'s queue, summing them.  `item_cost[name]` on a
missing key raises `KeyError` (only reachable for `qty > 0`, as in the
source, where `range(0)` skips the body); `[0]` on an empty queue raises
`IndexError`. -/
def popUnits (ic : Dict (List ℚ)) (name : String) :
    Nat → Except RecError (ℚ × Dict (List ℚ))
  | 0 => .ok (0, ic)
  | q + 1 =>
    match dictFind ic name with
    | none => .error .keyError
    | some [] => .error .indexError
    | some (c :: rest) =>
      match popUnits (dictSet ic name rest) name q with
      | .error e => .error e
      | .ok tic => .ok (c + tic.1, tic.2)

/-- The outer loop of `take_item_and_compute_cost` over the parsed
items, in insertion order. -/
def take_go : List (String × Nat) → ℚ → Dict (List ℚ) → Except RecError (ℚ × Dict (List ℚ))
  | [], total, ic => .ok (total, ic)
  | nq :: rest, total, ic =>
    match popUnits ic nq.1 nq.2 with
    | .error e => .error e
    | .ok tic => take_go rest (total + tic.1) tic.2

/-- Function `take_item_and_compute_cost(items)` of `analyzer.py`: FIFO-pop the
requested units and return the summed cost with the updated queues. -/
def take_item_and_compute_cost (ic : Dict (List ℚ)) (items : String) :
    Except RecError (ℚ × Dict (List ℚ)) :=
  match parse_items items with
  | .error e => .error e
  | .ok parsed => take_go parsed 0 ic

/-- Model of `if ref not in reserved_items_counter: reserved_items_counter[ref]
= {"items": {}, "remarks": ...}` — the record is created on first need.
The `remarks if not None else ""` of the source always evaluates to
`remarks`. -/
def ensureRef (res : Dict Reservation) (ref remarks : String) : Dict Reservation :=
  if dictContains res ref then res
  else dictSet res ref { items := [], remarks := remarks }

/-- Loop of `add_reserved_inventory`: ensure the record exists (so an
empty item list creates nothing), then assign each quantity. -/
def add_go : List (String × Nat) → String → String → Dict Reservation →
    Except RecError (Dict Reservation)
  | [], _, _, res => .ok res
  | nq :: rest, ref, remarks, res =>
    match dictFind (ensureRef res ref remarks) ref with
    | none => .error .keyError
    | some r =>
      add_go rest ref remarks
        (dictSet (ensureRef res ref remarks) ref
          { r with items := dictSet r.items nq.1 ((nq.2 : Int)) })

/-- Function `add_reserved_inventory(ref, items, remarks)` of `analyzer.py`. -/
def add_reserved_inventory (res : Dict Reservation) (ref items remarks : String) :
    Except RecError (Dict Reservation) :=
  match parse_items items with
  | .error e => .error e
  | .ok parsed => add_go parsed ref remarks res

/-- Loop of `take_reserved_inventory`: decrement the outstanding
quantity; a key missing from the record's item dict raises `KeyError`
(the `-=` on a missing key), hitting zero pops the item, and going
negative raises the over-release `ValueError`. -/
def take_res_go : List (String × Nat) → String → Dict Reservation →
    Except RecError (Dict Reservation)
  | [], _, res => .ok res
  | nq :: rest, ref, res =>
    match dictFind res ref with
    | none => .error .keyError
    | some r =>
      match dictFind r.items nq.1 with
      | none => .error .keyError
      | some cur =>
        let newq := cur - ((nq.2 : Int))
        if newq = 0 then
          take_res_go rest ref (dictSet res ref { r with items := dictErase r.items nq.1 })
        else if newq < 0 then .error .overRelease
        else take_res_go rest ref (dictSet res ref { r with items := dictSet r.items nq.1 newq })

/-- Function `take_reserved_inventory(ref, items)` of `analyzer.py`. -/
def take_reserved_inventory (res : Dict Reservation) (ref items : String) :
    Except RecError (Dict Reservation) :=
  match parse_items items with
  | .error e => .error e
  | .ok parsed => take_res_go parsed ref res

/-- One iteration of the pass-3 loop of `analyzer.py`, per action.
`ref_value[k] += v` / `-= v` is a read-modify-write that raises
`KeyError` when the key is absent; the RESERVE branch checks the
stripped reference against the ledger keys before consuming inventory;
the RELEASE branch consumes inventory only when the stripped reference
has no reservation record, first creating the ledger key at `0` when
absent and then subtracting (the two arms of the inner `if` spell out
the source's ensure-then-subtract on the ledger).  An unknown action
falls through the `elif` chain and leaves the state unchanged, as in
the source. -/
def step (s : RecState) (e : VEntry) : Except RecError RecState :=
  if e.action = "INCOME" then
    match remove_suffix e.ref with
    | .error err => .error err
    | .ok k =>
      match dictFind s.ref_value k with
      | none => .error .keyError
      | some old =>
        .ok { s with ref_value := dictSet s.ref_value k (old + e.value),
                     cash_flow := s.cash_flow + e.value,
                     profit := s.profit + e.value }
  else if e.action = "EXPENSE" then
    if e.type ≠ "material" then
      match remove_suffix e.ref with
      | .error err => .error err
      | .ok k =>
        match dictFind s.ref_value k with
        | none => .error .keyError
        | some old =>
          .ok { s with ref_value := dictSet s.ref_value k (old - e.value),
                       cash_flow := s.cash_flow - e.value,
                       profit := s.profit - e.value }
    else .ok { s with cash_flow := s.cash_flow - e.value }
  else if e.action = "OBTAIN" then
    match dictFind s.item_cost e.project with
    | none => .error .keyError
    | some l =>
      .ok { s with item_cost :=
              dictSet s.item_cost e.project (l ++ List.replicate e.quantity.toNat e.costeach) }
  else if e.action = "RESERVE" then
    match remove_suffix e.ref with
    | .error err => .error err
    | .ok k =>
      if dictContains s.ref_value k = true then .error .duplicateRef
      else
        match take_item_and_compute_cost s.item_cost e.items with
        | .error err => .error err
        | .ok tic =>
          match add_reserved_inventory s.reserved_items_counter k e.items e.remarks with
          | .error err => .error err
          | .ok res =>
            .ok { s with item_cost := tic.2,
                         reserved_items_counter := res,
                         ref_value := dictSet s.ref_value k (-tic.1),
                         profit := s.profit - tic.1 }
  else if e.action = "RELEASE" then
    match remove_suffix e.ref with
    | .error err => .error err
    | .ok k =>
      if dictContains s.reserved_items_counter k = false then
        match take_item_and_compute_cost s.item_cost e.items with
        | .error err => .error err
        | .ok tic =>
          if dictContains s.ref_value k = true then
            match dictFind s.ref_value k with
            | none => .error .keyError
            | some old =>
              .ok { s with item_cost := tic.2,
                           ref_value := dictSet s.ref_value k (old - tic.1),
                           profit := s.profit - tic.1 }
          else
            match dictFind (dictSet s.ref_value k 0) k with
            | none => .error .keyError
            | some old =>
              .ok { s with item_cost := tic.2,
                           ref_value := dictSet (dictSet s.ref_value k 0) k (old - tic.1),
                           profit := s.profit - tic.1 }
      else
        match take_reserved_inventory s.reserved_items_counter k e.items with
        | .error err => .error err
        | .ok res => .ok { s with reserved_items_counter := res }
  else .ok s

/-- Pass 3 from a given state: fold `step` over the validated entries,
aborting at the first error. -/
def reconcileFrom (s : RecState) : List VEntry → Except RecError RecState
  | [] => .ok s
  | e :: es =>
    match step s e with
    | .ok s2 => reconcileFrom s2 es
    | .error err => .error err

/-- Pass 3 from the initial state. -/
def reconcile (es : List VEntry) : Except RecError RecState :=
  reconcileFrom initState es

/-- The whole pipeline on parsed entries: pass 2, then (only when every
entry validated) pass 3.  No pass-3 state even exists before pass 2 has
completed. -/
def run (rates : Rates) (raws : List RawEntry) : Except RecError RecState :=
  match validateAll rates raws with
  | .error e => .error e
  | .ok vs => reconcile vs

/-! ### Specification-side accounting

Entry-level deltas used to state the profit identity, and the total
FIFO cost a run pops from the queues. -/

/-- The `VALUE` an entry contributes as income. -/
def incomeDelta (e : VEntry) : ℚ := if e.action = "INCOME" then e.value else 0

/-- The `VALUE` an entry contributes as non-material expense. -/
def expenseNMDelta (e : VEntry) : ℚ :=
  if e.action = "EXPENSE" ∧ e.type ≠ "material" then e.value else 0

/-- Sum of the income `VALUE`s of a sequence. -/
def incomeSum : List VEntry → ℚ
  | [] => 0
  | e :: es => incomeDelta e + incomeSum es

/-- Sum of the non-material expense `VALUE`s of a sequence. -/
def expenseNMSum : List VEntry → ℚ
  | [] => 0
  | e :: es => expenseNMDelta e + expenseNMSum es

/-- The FIFO cost an entry pops from the cost queues in state `s`:
the `take_item_and_compute_cost` total for a RESERVE (with a fresh
reference) or a RELEASE without a reservation record, `0` otherwise.
The branch structure mirrors `step` exactly. -/
def entryPop (s : RecState) (e : VEntry) : ℚ :=
  if e.action = "INCOME" then 0
  else if e.action = "EXPENSE" then 0
  else if e.action = "OBTAIN" then 0
  else if e.action = "RESERVE" then
    match remove_suffix e.ref with
    | .error _ => 0
    | .ok k =>
      if dictContains s.ref_value k = true then 0
      else
        match take_item_and_compute_cost s.item_cost e.items with
        | .error _ => 0
        | .ok tic => tic.1
  else if e.action = "RELEASE" then
    match remove_suffix e.ref with
    | .error _ => 0
    | .ok k =>
      if dictContains s.reserved_items_counter k = false then
        match take_item_and_compute_cost s.item_cost e.items with
        | .error _ => 0
        | .ok tic => tic.1
      else 0
  else 0

/-- Total FIFO cost popped along a run (the consumed-inventory cost of
the profit identity). -/
def consumedFrom (s : RecState) : List VEntry → ℚ
  | [] => 0
  | e :: es =>
    match step s e with
    | .ok s2 => entryPop s e + consumedFrom s2 es
    | .error _ => 0

/-! ### Concrete fixtures used by the claim theorems -/

/-- A rate provider that resolves no non-USD currency (the USD code
path never consults it). -/
def ratesNone : Rates := fun _ _ => none

/-- C1 fixture: obtain one unit at 4, a non-material expense of 3, a
reservation-free release consuming the unit, then an income of 10 under
a suffixed form of the release's reference. -/
def c1entries : List VEntry :=
  [{ action := "OBTAIN", date := "2024-01-01", type := "assembled", ref := "",
     project := "ilonena", items := "", remarks := "", quantity := 1, costeach := 4, value := 0 },
   { action := "EXPENSE", date := "2024-01-02", type := "shipping", ref := "",
     project := "", items := "", remarks := "", quantity := 0, costeach := 0, value := 3 },
   { action := "RELEASE", date := "2024-01-03", type := "sales", ref := "2",
     project := "", items := "ilonena1", remarks := "", quantity := 0, costeach := 0, value := 0 },
   { action := "INCOME", date := "2024-01-04", type := "sales", ref := "2a",
     project := "", items := "", remarks := "", quantity := 0, costeach := 0, value := 10 }]

/-- Final state of the C1 fixture. -/
def c1final : RecState :=
  { item_cost := [(("ilonena"), []), (("ilomusiali"), [])],
    ref_value := [(("") , -3), (("2"), 6)],
    reserved_items_counter := [],
    cash_flow := 7, profit := 3 }

/-- C2 fixture: two single-unit OBTAINs put unit costs [10, 20] on
`ilonena`'s queue, then a RELEASE (fresh reference, no reservation)
consumes one unit. -/
def c2entries : List VEntry :=
  [{ action := "OBTAIN", date := "2024-01-01", type := "assembled", ref := "",
     project := "ilonena", items := "", remarks := "", quantity := 1, costeach := 10, value := 0 },
   { action := "OBTAIN", date := "2024-01-01", type := "assembled", ref := "",
     project := "ilonena", items := "", remarks := "", quantity := 1, costeach := 20, value := 0 },
   { action := "RELEASE", date := "2024-01-02", type := "sales", ref := "1",
     project := "", items := "ilonena1", remarks := "", quantity := 0, costeach := 0, value := 0 }]

/-- Final state of the C2 fixture. -/
def c2final : RecState :=
  { item_cost := [(("ilonena"), [20]), (("ilomusiali"), [])],
    ref_value := [(("") , 0), (("1"), -10)],
    reserved_items_counter := [],
    cash_flow := 0, profit := -10 }

/-- C3 counterexample entry: an INCOME whose stripped reference `"1"`
is not yet a ledger key. -/
def c3entry : VEntry :=
  { action := "INCOME", date := "2024-01-01", type := "sales", ref := "1",
    project := "", items := "", remarks := "", quantity := 0, costeach := 0, value := 100 }

/-- C3 witness state: the ledger already holds the stripped key `"7"`. -/
def c3state : RecState :=
  { item_cost := [(("ilonena"), []), (("ilomusiali"), [])],
    ref_value := [(("") , 0), (("7"), 3)],
    reserved_items_counter := [],
    cash_flow := 0, profit := 0 }

/-- C3 witness entry: an INCOME under the suffixed reference `"7a"`. -/
def c3entry2 : VEntry :=
  { action := "INCOME", date := "2024-01-01", type := "sales", ref := "7a",
    project := "", items := "", remarks := "", quantity := 0, costeach := 0, value := 5 }

/-- The C5 scenario exactly as the claim states it. -/
def c5raws : List RawEntry :=
  [[(("ACTION"), ("OBTAIN")), (("DATE"), ("2024-01-01")), (("TYPE"), ("assembled")),
    (("PROJECT"), ("widgetX")), (("QUANTITY"), ("2")), (("COSTEACH"), ("USD5"))],
   [(("ACTION"), ("RELEASE")), (("DATE"), ("2024-01-02")), (("TYPE"), ("sales")),
    (("REF"), ("order1")), (("ITEMS"), ("widgetX1"))]]

/-- The C5 scenario repaired: a configured item name and a reference
the key-stripping accepts. -/
def c5amendedRaws : List RawEntry :=
  [[(("ACTION"), ("OBTAIN")), (("DATE"), ("2024-01-01")), (("TYPE"), ("assembled")),
    (("PROJECT"), ("ilonena")), (("QUANTITY"), ("2")), (("COSTEACH"), ("USD5"))],
   [(("ACTION"), ("RELEASE")), (("DATE"), ("2024-01-02")), (("TYPE"), ("sales")),
    (("REF"), ("1")), (("ITEMS"), ("ilonena1"))]]

/-- Final state of the repaired C5 scenario. -/
def c5final : RecState :=
  { item_cost := [(("ilonena"), [5]), (("ilomusiali"), [])],
    ref_value := [(("") , 0), (("1"), -5)],
    reserved_items_counter := [],
    cash_flow := 0, profit := -5 }

/-- C6 witness state: the ledger already holds the stripped key `"1"`
(as after an earlier RESERVE of `"1"`). -/
def c6state : RecState :=
  { item_cost := [(("ilonena"), [2]), (("ilomusiali"), [])],
    ref_value := [(("") , 0), (("1"), -2)],
    reserved_items_counter := [(("1"), { items := [(("ilonena"), 1)], remarks := "" })],
    cash_flow := 0, profit := -2 }

/-- C6 witness entry: a second RESERVE whose reference strips to `"1"`. -/
def c6entry : VEntry :=
  { action := "RESERVE", date := "2024-01-02", type := "", ref := "1b",
    project := "", items := "ilonena1", remarks := "", quantity := 0, costeach := 0, value := 0 }

/-- C7 fixture, first four entries: obtain three units, reserve all
three, then release one and release two under the same reference. -/
def c7es4 : List VEntry :=
  [{ action := "OBTAIN", date := "2024-01-01", type := "assembled", ref := "",
     project := "ilonena", items := "", remarks := "", quantity := 3, costeach := 1, value := 0 },
   { action := "RESERVE", date := "2024-01-02", type := "", ref := "1",
     project := "", items := "ilonena3", remarks := "", quantity := 0, costeach := 0, value := 0 },
   { action := "RELEASE", date := "2024-01-03", type := "sales", ref := "1",
     project := "", items := "ilonena1", remarks := "", quantity := 0, costeach := 0, value := 0 },
   { action := "RELEASE", date := "2024-01-04", type := "sales", ref := "1",
     project := "", items := "ilonena2", remarks := "", quantity := 0, costeach := 0, value := 0 }]

/-- State after the C7 four-entry prefix: the reservation record for
`"1"` is still present but holds no outstanding items. -/
def c7state4 : RecState :=
  { item_cost := [(("ilonena"), []), (("ilomusiali"), [])],
    ref_value := [(("") , 0), (("1"), -3)],
    reserved_items_counter := [(("1"), { items := [], remarks := "" })],
    cash_flow := 0, profit := -3 }

/-- C7 fixture extended by a third RELEASE of one more unit. -/
def c7es5 : List VEntry :=
  c7es4 ++
  [{ action := "RELEASE", date := "2024-01-05", type := "sales", ref := "1",
     project := "", items := "ilonena1", remarks := "", quantity := 0, costeach := 0, value := 0 }]

/-- C8 witness: two RESERVE entries with strictly decreasing dates. -/
def c8raws : List RawEntry :=
  [[(("ACTION"), ("RESERVE")), (("DATE"), ("2024-01-02")), (("REF"), ("1")),
    (("ITEMS"), ("ilonena1"))],
   [(("ACTION"), ("RESERVE")), (("DATE"), ("2024-01-01")), (("REF"), ("2")),
    (("ITEMS"), ("ilonena1"))]]

/-- C2 witness entry: a two-unit OBTAIN. -/
def c2obtain : VEntry :=
  { action := "OBTAIN", date := "2024-01-01", type := "assembled", ref := "",
    project := "ilonena", items := "", remarks := "", quantity := 2, costeach := 7, value := 0 }

/-- C10 fixture: a single material EXPENSE, which moves `cash_flow`
but neither `profit` nor the reference ledger. -/
def c10entries : List VEntry :=
  [{ action := "EXPENSE", date := "2024-01-01", type := "material", ref := "",
     project := "ilonena", items := "", remarks := "", quantity := 0, costeach := 0, value := 7 }]

/-- Final state of the C10 fixture. -/
def c10final : RecState :=
  { item_cost := [(("ilonena"), []), (("ilomusiali"), [])],
    ref_value := [(("") , 0)],
    reserved_items_counter := [],
    cash_flow := -7, profit := 0 }

/-! ### Dictionary lemmas -/

/-- Updating a key makes it the found binding. -/
theorem dictFind_set_self {α : Type} (d : Dict α) (k : String) (v : α) :
    dictFind (dictSet d k v) k = some v := by
  induction d with
  | nil => simp [dictSet, dictFind]
  | cons kv rest ih =>
    by_cases h : kv.1 = k
    · simp [dictSet, dictFind, h]
    · simp [dictSet, dictFind, h, ih]

/-- A dict sum changes by the difference between the new and the old
value of the updated key (first binding; `0` when absent). -/
theorem sumValues_set (d : Dict ℚ) (k : String) (v : ℚ) :
    sumValues (dictSet d k v) = sumValues d - ((dictFind d k).getD 0) + v := by
  induction d with
  | nil => simp [dictSet, dictFind, sumValues]
  | cons kv rest ih =>
    by_cases h : kv.1 = k
    · simp [dictSet, dictFind, sumValues, h]
      ring
    · simp only [sumValues, dictSet, dictFind, if_neg h, List.map_cons, List.sum_cons] at ih ⊢
      rw [ih]
      ring

/-- A `contains = false` result means the lookup misses. -/
theorem dictFind_eq_none_of_contains_false {α : Type} (d : Dict α) (k : String)
    (h : dictContains d k = false) : dictFind d k = none := by
  unfold dictContains at h
  cases hf : dictFind d k with
  | none => rfl
  | some v => rw [hf] at h; simp at h

/-- A `contains = true` result yields a witness binding. -/
theorem exists_of_contains_true {α : Type} (d : Dict α) (k : String)
    (h : dictContains d k = true) : ∃ v, dictFind d k = some v := by
  unfold dictContains at h
  cases hf : dictFind d k with
  | none => rw [hf] at h; simp at h
  | some v => exact ⟨v, rfl⟩

/-! ### Per-entry deltas of the reconciliation step -/

/-- A successful `step` changes `profit` by income minus non-material
expense minus the FIFO cost it pops, and changes the reference-ledger
sum by exactly the profit change. -/
theorem step_deltas (s : RecState) (e : VEntry) (s2 : RecState) (h : step s e = .ok s2) :
    s2.profit = s.profit + incomeDelta e - expenseNMDelta e - entryPop s e ∧
    sumValues s2.ref_value - sumValues s.ref_value = s2.profit - s.profit := by
  unfold step at h
  unfold entryPop incomeDelta expenseNMDelta
  by_cases h1 : e.action = "INCOME"
  · simp only [h1, String.reduceEq, reduceIte, false_and, if_false] at h ⊢
    cases hr : remove_suffix e.ref with
    | error err => simp only [hr] at h; exact Except.noConfusion h
    | ok k =>
      simp only [hr] at h
      cases hf : dictFind s.ref_value k with
      | none => simp only [hf] at h; exact Except.noConfusion h
      | some old =>
        simp only [hf] at h
        injection h with h2
        subst h2
        refine ⟨by simp, ?_⟩
        rw [sumValues_set]
        simp only [hf, Option.getD_some]
        simp
        try ring
  · simp only [h1, if_neg h1, String.reduceEq, reduceIte, false_and, if_false] at h ⊢
    by_cases h2 : e.action = "EXPENSE"
    · simp only [h2, String.reduceEq, reduceIte, true_and] at h ⊢
      by_cases h3 : e.type = "material"
      · have hcne : ¬(e.type ≠ "material") := fun hc => hc h3
        rw [if_neg hcne] at h
        rw [if_neg hcne]
        injection h with hh
        subst hh
        exact ⟨by simp, by simp⟩
      · rw [if_pos h3] at h
        rw [if_pos h3]
        cases hr : remove_suffix e.ref with
        | error err => simp only [hr] at h; exact Except.noConfusion h
        | ok k =>
          simp only [hr] at h
          cases hf : dictFind s.ref_value k with
          | none => simp only [hf] at h; exact Except.noConfusion h
          | some old =>
            simp only [hf] at h
            injection h with hh
            subst hh
            refine ⟨by simp, ?_⟩
            rw [sumValues_set]
            simp only [hf, Option.getD_some]
            simp
            try ring
    · simp only [h2, if_neg h2, String.reduceEq, reduceIte, false_and, if_false] at h ⊢
      by_cases h3 : e.action = "OBTAIN"
      · simp only [h3, String.reduceEq, reduceIte] at h ⊢
        cases hf : dictFind s.item_cost e.project with
        | none => simp only [hf] at h; exact Except.noConfusion h
        | some l =>
          simp only [hf] at h
          injection h with hh
          subst hh
          exact ⟨by simp, by simp⟩
      · simp only [h3, if_neg h3, String.reduceEq, reduceIte] at h ⊢
        by_cases h4 : e.action = "RESERVE"
        · simp only [h4, String.reduceEq, reduceIte] at h ⊢
          cases hr : remove_suffix e.ref with
          | error err => simp only [hr] at h; exact Except.noConfusion h
          | ok k =>
            simp only [hr] at h ⊢
            by_cases hc : dictContains s.ref_value k = true
            · rw [if_pos hc] at h
              exact Except.noConfusion h
            · rw [if_neg hc] at h
              have hcf : dictContains s.ref_value k = false := by
                revert hc; cases dictContains s.ref_value k <;> simp
              cases ht : take_item_and_compute_cost s.item_cost e.items with
              | error err => simp only [ht] at h; exact Except.noConfusion h
              | ok tic =>
                simp only [ht] at h
                cases ha : add_reserved_inventory s.reserved_items_counter k e.items e.remarks with
                | error err => simp only [ha] at h; exact Except.noConfusion h
                | ok res =>
                  simp only [ha] at h
                  injection h with hh
                  subst hh
                  constructor
                  · simp [hcf, ht]
                  · rw [sumValues_set, dictFind_eq_none_of_contains_false _ _ hcf]
                    simp
                    try ring
        · simp only [h4, if_neg h4, String.reduceEq, reduceIte] at h ⊢
          by_cases h5 : e.action = "RELEASE"
          · simp only [h5, String.reduceEq, reduceIte] at h ⊢
            cases hr : remove_suffix e.ref with
            | error err => simp only [hr] at h; exact Except.noConfusion h
            | ok k =>
              simp only [hr] at h ⊢
              by_cases hres : dictContains s.reserved_items_counter k = false
              · rw [if_pos hres] at h
                cases ht : take_item_and_compute_cost s.item_cost e.items with
                | error err => simp only [ht] at h; exact Except.noConfusion h
                | ok tic =>
                  simp only [ht] at h
                  by_cases hcv : dictContains s.ref_value k = true
                  · rw [if_pos hcv] at h
                    obtain ⟨old, hold⟩ := exists_of_contains_true s.ref_value k hcv
                    simp only [hold] at h
                    injection h with hh
                    subst hh
                    constructor
                    · simp [hres, ht]
                    · rw [sumValues_set]
                      simp only [hold, Option.getD_some]
                      simp
                      try ring
                  · rw [if_neg hcv] at h
                    have hcvf : dictContains s.ref_value k = false := by
                      revert hcv; cases dictContains s.ref_value k <;> simp
                    simp only [dictFind_set_self] at h
                    injection h with hh
                    subst hh
                    constructor
                    · simp [hres, ht]
                    · rw [sumValues_set, dictFind_set_self, sumValues_set,
                          dictFind_eq_none_of_contains_false _ _ hcvf]
                      simp
                      try ring
              · rw [if_neg hres] at h
                have hrest : dictContains s.reserved_items_counter k = true := by
                  revert hres; cases dictContains s.reserved_items_counter k <;> simp
                cases htr : take_reserved_inventory s.reserved_items_counter k e.items with
                | error err => simp only [htr] at h; exact Except.noConfusion h
                | ok res =>
                  simp only [htr] at h
                  injection h with hh
                  subst hh
                  refine ⟨by simp [hrest], by simp⟩
          · simp only [h5, if_neg h5, String.reduceEq, reduceIte] at h ⊢
            injection h with hh
            subst hh
            exact ⟨by simp, by simp⟩

/-! ### Run-level invariants -/

/-- Profit identity along any successful partial run: the final profit
is the initial profit plus income, minus non-material expense, minus
the FIFO cost the run popped. -/
theorem profit_identity_from (es : List VEntry) : ∀ (s0 s : RecState),
    reconcileFrom s0 es = .ok s →
    s.profit = s0.profit + incomeSum es - expenseNMSum es - consumedFrom s0 es := by
  induction es with
  | nil =>
    intro s0 s h
    unfold reconcileFrom at h
    injection h with h2
    subst h2
    simp [incomeSum, expenseNMSum, consumedFrom]
  | cons e es ih =>
    intro s0 s h
    unfold reconcileFrom at h
    cases hs : step s0 e with
    | error err => simp only [hs] at h; exact Except.noConfusion h
    | ok s1 =>
      simp only [hs] at h
      have hd := (step_deltas s0 e s1 hs).1
      have hrec := ih s1 s h
      simp only [incomeSum, expenseNMSum, consumedFrom, hs]
      rw [hrec, hd]
      ring

/-- Along any successful partial run, profit and the reference-ledger
sum change in lockstep. -/
theorem ledger_sum_from (es : List VEntry) : ∀ (s0 s : RecState),
    reconcileFrom s0 es = .ok s →
    s.profit - sumValues s.ref_value = s0.profit - sumValues s0.ref_value := by
  induction es with
  | nil =>
    intro s0 s h
    unfold reconcileFrom at h
    injection h with h2
    subst h2
    rfl
  | cons e es ih =>
    intro s0 s h
    unfold reconcileFrom at h
    cases hs : step s0 e with
    | error err => simp only [hs] at h; exact Except.noConfusion h
    | ok s1 =>
      simp only [hs] at h
      have hd := (step_deltas s0 e s1 hs).2
      have hrec := ih s1 s h
      linarith

/-! ### Which errors the RESERVE consumption path can raise -/

/-- Loop `parse_items_go` never raises the duplicate-reference error. -/
theorem parse_items_go_no_dup (toks : List String) : ∀ (acc : Dict Nat),
    parse_items_go toks acc ≠ .error .duplicateRef := by
  induction toks with
  | nil => intro acc h; exact Except.noConfusion h
  | cons t ts ih =>
    intro acc h
    unfold parse_items_go at h
    cases hm : matchItem t.data with
    | none =>
      simp only [hm] at h
      exact RecError.noConfusion (Except.error.inj h)
    | some nq =>
      simp only [hm] at h
      exact ih _ h

/-- Function `parse_items` never raises the duplicate-reference error. -/
theorem parse_items_no_dup (items : String) : parse_items items ≠ .error .duplicateRef := by
  intro h
  unfold parse_items at h
  exact parse_items_go_no_dup _ _ h

/-- Function `popUnits` never raises the duplicate-reference error. -/
theorem popUnits_no_dup (q : Nat) : ∀ (ic : Dict (List ℚ)) (name : String),
    popUnits ic name q ≠ .error .duplicateRef := by
  induction q with
  | zero => intro ic name h; exact Except.noConfusion h
  | succ n ih =>
    intro ic name h
    unfold popUnits at h
    cases hf : dictFind ic name with
    | none =>
      simp only [hf] at h
      exact RecError.noConfusion (Except.error.inj h)
    | some l =>
      cases l with
      | nil =>
        simp only [hf] at h
        exact RecError.noConfusion (Except.error.inj h)
      | cons c rest =>
        simp only [hf] at h
        cases hp : popUnits (dictSet ic name rest) name n with
        | error e2 =>
          simp only [hp] at h
          exact ih _ _ (hp.trans (by rw [Except.error.inj h]))
        | ok tic =>
          simp only [hp] at h
          exact Except.noConfusion h

/-- Loop `take_go` never raises the duplicate-reference error. -/
theorem take_go_no_dup (l : List (String × Nat)) : ∀ (t : ℚ) (ic : Dict (List ℚ)),
    take_go l t ic ≠ .error .duplicateRef := by
  induction l with
  | nil => intro t ic h; exact Except.noConfusion h
  | cons nq rest ih =>
    intro t ic h
    unfold take_go at h
    cases hp : popUnits ic nq.1 nq.2 with
    | error e2 =>
      simp only [hp] at h
      exact popUnits_no_dup _ _ _ (hp.trans (by rw [Except.error.inj h]))
    | ok tic =>
      simp only [hp] at h
      exact ih _ _ h

/-- Function `take_item_and_compute_cost` never raises the duplicate-reference
error. -/
theorem take_item_no_dup (ic : Dict (List ℚ)) (items : String) :
    take_item_and_compute_cost ic items ≠ .error .duplicateRef := by
  intro h
  unfold take_item_and_compute_cost at h
  cases hp : parse_items items with
  | error e2 =>
    simp only [hp] at h
    exact parse_items_no_dup _ (hp.trans (by rw [Except.error.inj h]))
  | ok parsed =>
    simp only [hp] at h
    exact take_go_no_dup _ _ _ h

/-- Loop `add_go` never raises the duplicate-reference error. -/
theorem add_go_no_dup (l : List (String × Nat)) : ∀ (ref remarks : String) (res : Dict Reservation),
    add_go l ref remarks res ≠ .error .duplicateRef := by
  induction l with
  | nil => intro _ _ _ h; exact Except.noConfusion h
  | cons nq rest ih =>
    intro ref remarks res h
    unfold add_go at h
    cases hf : dictFind (ensureRef res ref remarks) ref with
    | none =>
      simp only [hf] at h
      exact RecError.noConfusion (Except.error.inj h)
    | some r =>
      simp only [hf] at h
      exact ih _ _ _ h

/-- Function `add_reserved_inventory` never raises the duplicate-reference
error. -/
theorem add_reserved_no_dup (res : Dict Reservation) (ref items remarks : String) :
    add_reserved_inventory res ref items remarks ≠ .error .duplicateRef := by
  intro h
  unfold add_reserved_inventory at h
  cases hp : parse_items items with
  | error e2 =>
    simp only [hp] at h
    exact parse_items_no_dup _ (hp.trans (by rw [Except.error.inj h]))
  | ok parsed =>
    simp only [hp] at h
    exact add_go_no_dup _ _ _ _ h

/-! ### Claim theorems -/

/-- C1: for every validated entry sequence that pass 3 processes to
completion, the final profit equals the sum of INCOME values, minus the
sum of non-material EXPENSE values, minus the FIFO unit costs popped by
RESERVE and by RELEASE-without-prior-reservation.  Every prefix of a
completed run is itself a completed run, so the identity holds after
each processed entry. -/
theorem profit_identity (es : List VEntry) (s : RecState) (h : reconcile es = .ok s) :
    s.profit = incomeSum es - expenseNMSum es - consumedFrom initState es := by
  have hmain := profit_identity_from es initState s h
  rw [hmain]
  simp [initState]

/-- Witness for C1: the four-entry fixture run (obtain, expense,
release, income) satisfies the profit identity. -/
theorem profit_identity_witness :
    c1final.profit = incomeSum c1entries - expenseNMSum c1entries - consumedFrom initState c1entries :=
  profit_identity c1entries c1final (by
    simp [reconcile, reconcileFrom, step, initState, c1entries, c1final, dictFind, dictSet,
          dictContains, dictErase, remove_suffix, take_item_and_compute_cost, take_go, popUnits,
          parse_items, parse_items_go, matchItem, splitWS, splitWSAux, digitsToNat,
          add_reserved_inventory, add_go, ensureRef, take_reserved_inventory, take_res_go,
          AVAILABLE_ITEMS] <;> norm_num)

/-- C2: the per-item cost queue is FIFO — a successful OBTAIN appends
QUANTITY copies of COSTEACH at the back of the named item's queue, and
in the concrete run that queues unit costs [10, 20] on `ilonena` and
then RELEASEs one unit without a prior reservation, the consumed FIFO
cost is 10 and the remaining queue is [20]. -/
theorem fifo_cost_queue :
    (∀ (s : RecState) (e : VEntry) (l : List ℚ), e.action = "OBTAIN" →
       dictFind s.item_cost e.project = some l →
       step s e =
         .ok { s with
               item_cost :=
                 dictSet s.item_cost e.project
                   (l ++ List.replicate e.quantity.toNat e.costeach) }) ∧
    reconcile c2entries = .ok c2final ∧
    dictFind c2final.item_cost ("ilonena") = some [20] ∧
    consumedFrom initState c2entries = 10 := by
  refine ⟨?_, ?_, rfl, ?_⟩
  · intro s e l ha hf
    unfold step
    simp only [ha, String.reduceEq, reduceIte, hf]
  · simp [reconcile, reconcileFrom, step, initState, c2entries, c2final, dictFind, dictSet,
          dictContains, dictErase, remove_suffix, take_item_and_compute_cost, take_go, popUnits,
          parse_items, parse_items_go, matchItem, splitWS, splitWSAux, digitsToNat,
          AVAILABLE_ITEMS] <;> norm_num
  · simp [consumedFrom, entryPop, step, initState, c2entries, dictFind, dictSet,
          dictContains, dictErase, remove_suffix, take_item_and_compute_cost, take_go, popUnits,
          parse_items, parse_items_go, matchItem, splitWS, splitWSAux, digitsToNat,
          AVAILABLE_ITEMS] <;> norm_num

/-- Witness for C2: the OBTAIN clause applied to the initial state and
a concrete two-unit OBTAIN at unit cost 7. -/
theorem fifo_cost_queue_witness :
    step initState c2obtain =
      .ok { initState with
            item_cost :=
              dictSet initState.item_cost c2obtain.project
                ([] ++ List.replicate c2obtain.quantity.toNat c2obtain.costeach) } :=
  fifo_cost_queue.1 initState c2obtain [] rfl rfl

/-- C3 counterexample: an INCOME whose stripped reference is not yet a
ledger key does not add anywhere — it fails with the `KeyError` that
`ref_value[k] += VALUE` raises on a missing key. -/
theorem income_fresh_ref_counterexample :
    step initState c3entry = .error RecError.keyError := rfl

/-- C3 amended: an INCOME adds its VALUE to `cash_flow`, to `profit`
and to `ReferenceLedger[k]` when the suffix-stripped reference `k` is
already a ledger key (in particular the empty-string bucket for an
absent or empty REF); when the key is absent the entry fails with a
`KeyError` instead. -/
theorem income_adds_value (s : RecState) (e : VEntry) (k : String) (old : ℚ)
    (ha : e.action = "INCOME") (hk : remove_suffix e.ref = .ok k)
    (hf : dictFind s.ref_value k = some old) :
    step s e =
      .ok { s with
            ref_value := dictSet s.ref_value k (old + e.value),
            cash_flow := s.cash_flow + e.value,
            profit := s.profit + e.value } := by
  unfold step
  simp only [ha, String.reduceEq, reduceIte, hk, hf]

/-- Witness for C3: an INCOME of 5 under reference `"7a"` lands in the
existing bucket `"7"`. -/
theorem income_adds_value_witness :
    step c3state c3entry2 =
      .ok { c3state with
            ref_value := dictSet c3state.ref_value ("7") (3 + 5),
            cash_flow := c3state.cash_flow + 5,
            profit := c3state.profit + 5 } :=
  income_adds_value c3state c3entry2 ("7") 3 rfl rfl rfl

/-- Helper for C4: `takeWhile` of a concatenation whose first part all
satisfies the predicate and whose second part starts with a failing
character is exactly the first part. -/
theorem takeWhile_all_head (p : Char → Bool) (pre suf : List Char)
    (h1 : ∀ c ∈ pre, p c = true) (h2 : ∀ c rest2, suf = c :: rest2 → p c = false) :
    (pre ++ suf).takeWhile p = pre := by
  induction pre with
  | nil =>
    cases suf with
    | nil => rfl
    | cons c cs => simp [List.takeWhile_cons, h2 c cs rfl]
  | cons a rest ih =>
    have ha : p a = true := h1 a (by simp)
    simp only [List.cons_append, List.takeWhile_cons, ha, if_true]
    rw [ih (fun c hc => h1 c (by simp [hc]))]

/-- C4 counterexample: the key derivation is `re.match` with a pattern
anchored at a digit/hyphen/underscore, so on `"order1"` (which starts
with a letter) `.group(1)` is called on `None` and the derivation
fails, contradicting both the stated result and "never fails". -/
theorem remove_suffix_counterexample :
    remove_suffix ("order1") = .error RecError.attributeError := rfl

/-- C4 amended: the derivation maps `""` to `""`; on a string that
starts with a digit, hyphen or underscore it returns the maximal
leading run of those characters, dropping the whole remainder (whatever
characters it holds, so suffixed references such as `"123a"`/`"123b"`
still collapse to `"123"`); on any other nonempty string it fails with
the `AttributeError` of `.group(1)` on `None`. -/
theorem remove_suffix_amended (pre suf : List Char)
    (hpre : ∀ c ∈ pre, (c.isDigit || c == '-' || c == '_') = true)
    (hsuf : ∀ c rest2, suf = c :: rest2 → (c.isDigit || c == '-' || c == '_') = false) :
    (pre ≠ [] → remove_suffix (String.mk (pre ++ suf)) = .ok (String.mk pre)) ∧
    (pre = [] → suf ≠ [] → remove_suffix (String.mk (pre ++ suf)) = .error .attributeError) ∧
    remove_suffix ("") = .ok ("") ∧
    remove_suffix ("123a") = .ok ("123") ∧
    remove_suffix ("123b") = .ok ("123") := by
  have hdata : (String.mk (pre ++ suf)).data = pre ++ suf := rfl
  have htw : (pre ++ suf).takeWhile (fun c => c.isDigit || c == '-' || c == '_') = pre :=
    takeWhile_all_head _ pre suf hpre hsuf
  refine ⟨?_, ?_, rfl, rfl, rfl⟩
  · intro hne
    have hsne : String.mk (pre ++ suf) ≠ "" := by
      intro hh
      apply hne
      have hd2 : pre ++ suf = ([] : List Char) := congrArg String.data hh
      exact (List.append_eq_nil.mp hd2).1
    unfold remove_suffix
    rw [if_neg hsne, hdata, htw, if_neg hne]
  · intro hpe hse
    have hsne : String.mk (pre ++ suf) ≠ "" := by
      intro hh
      apply hse
      have hd2 : pre ++ suf = ([] : List Char) := congrArg String.data hh
      exact (List.append_eq_nil.mp hd2).2
    unfold remove_suffix
    rw [if_neg hsne, hdata, htw, if_pos hpe]

/-- Witness for C4: the run `"123"` followed by the suffix `"ab"`
strips to `"123"`. -/
theorem remove_suffix_amended_witness :
    remove_suffix (String.mk (['1', '2', '3'] ++ ['a', 'b'])) = .ok (String.mk ['1', '2', '3']) :=
  (remove_suffix_amended ['1', '2', '3'] ['a', 'b'] (by decide)
    (by intro c r hh; injection hh with h1 h2; rw [← h1]; decide)).1 (by decide)

/-- C5 counterexample: the two-entry scenario exactly as stated fails
validation — `widgetX` is not one of the configured items
(`AVAILABLE_ITEMS = ["ilonena", "ilomusiali"]`), so the OBTAIN line
raises the invalid-PROJECT error and nothing reconciles. -/
theorem scenario_counterexample :
    run ratesNone c5raws = .error RecError.invalidProjectValue := rfl

/-- C5 amended: the same scenario with the configured item `ilonena`
and the digit-led reference `"1"` (the stated `order1` makes the
pass-3 key stripping fail) validates and reconciles to: one remaining
`ilonena` unit with next FIFO cost 5, `ReferenceLedger["1"] = -5`,
`profit = -5`, `cash_flow = 0`. -/
theorem scenario_amended :
    run ratesNone c5amendedRaws = .ok c5final := by
  simp [run, validateAll, validateAllFrom, validateEntry, getField, checkRequired, checkDate,
        checkTypeField, checkProjectField, checkItemsField, fillOptional, checkRecognized,
        getCosteach, getQuantity, getValue, checkMaterial, buildVEntry, fieldD,
        AVAILABLE_ACTIONS, AVAILABLE_TYPES, AVAILABLE_ITEMS,
        convert_to_usd, compute_value, pyStrip, pyStripList, matchCurrency, parseUnsigned,
        splitDots, digitsToNat, parsePyInt, parsePyFloat, toUpperStr, strLastIsPercent,
        dropLastStr, parseDate10, validDate, daysInMonth, isLeap, pyStrLt, charListLt,
        parse_items, parse_items_go, splitWS, splitWSAux, matchItem,
        dictFind, dictSet, dictContains, dictErase,
        reconcile, reconcileFrom, step, initState, remove_suffix,
        take_item_and_compute_cost, take_go, popUnits, ensureRef, add_go,
        add_reserved_inventory, take_reserved_inventory, take_res_go,
        c5amendedRaws, c5final, ratesNone] <;> norm_num

/-- C6: a RESERVE whose suffix-stripped reference is already a key of
the reference ledger fails with the duplicate-reference error; one
whose stripped reference is not yet a key never raises that error. -/
theorem reserve_duplicate_reference (s : RecState) (e : VEntry) (k : String)
    (ha : e.action = "RESERVE") (hk : remove_suffix e.ref = .ok k) :
    (dictContains s.ref_value k = true → step s e = .error RecError.duplicateRef) ∧
    (dictContains s.ref_value k = false → step s e ≠ .error RecError.duplicateRef) := by
  constructor
  · intro hc
    unfold step
    simp only [ha, String.reduceEq, reduceIte, hk]
    rw [if_pos hc]
  · intro hc hcontra
    unfold step at hcontra
    simp only [ha, String.reduceEq, reduceIte, hk] at hcontra
    rw [if_neg (by simp [hc])] at hcontra
    cases ht : take_item_and_compute_cost s.item_cost e.items with
    | error err =>
      simp only [ht] at hcontra
      exact take_item_no_dup s.item_cost e.items (ht.trans (by rw [Except.error.inj hcontra]))
    | ok tic =>
      simp only [ht] at hcontra
      cases hadd : add_reserved_inventory s.reserved_items_counter k e.items e.remarks with
      | error err =>
        simp only [hadd] at hcontra
        exact add_reserved_no_dup s.reserved_items_counter k e.items e.remarks
          (hadd.trans (by rw [Except.error.inj hcontra]))
      | ok res =>
        simp only [hadd] at hcontra
        exact Except.noConfusion hcontra

/-- Witness for C6: a second RESERVE whose reference `"1b"` strips to
the already-present key `"1"` fails with the duplicate error. -/
theorem reserve_duplicate_reference_witness :
    step c6state c6entry = .error RecError.duplicateRef :=
  (reserve_duplicate_reference c6state c6entry ("1") rfl rfl).1 rfl

/-- C7: after RESERVE of 3 units and RELEASEs of 1 and 2 units the
reservation record for the reference holds no outstanding items; the
claimed third RELEASE does fail fatally, but with the `KeyError` of
decrementing the already-dropped item key, not with the dedicated
over-release error the code reserves for going negative. -/
theorem release_after_exhausted_reservation :
    reconcile c7es4 = .ok c7state4 ∧
    dictFind c7state4.reserved_items_counter ("1") = some { items := [], remarks := "" } ∧
    reconcile c7es5 = .error RecError.keyError ∧
    RecError.keyError ≠ RecError.overRelease := by
  refine ⟨?_, rfl, rfl, by decide⟩
  simp [reconcile, reconcileFrom, step, initState, c7es4, c7state4, dictFind, dictSet,
        dictContains, dictErase, remove_suffix, take_item_and_compute_cost, take_go, popUnits,
        parse_items, parse_items_go, matchItem, splitWS, splitWSAux, digitsToNat,
        add_reserved_inventory, add_go, ensureRef, take_reserved_inventory, take_res_go,
        AVAILABLE_ITEMS] <;> norm_num

/-- C8: the pipeline is validate-then-reconcile — when any entry fails
validation (the date-monotonicity check included), the whole run
returns that validation error and no pass-3 state is ever produced or
touched. -/
theorem validation_aborts_run (rates : Rates) (raws : List RawEntry) (err : RecError)
    (h : validateAll rates raws = .error err) : run rates raws = .error err := by
  unfold run
  rw [h]

/-- Witness for C8: two RESERVE entries with strictly decreasing dates
make the run abort with the non-chronological-date error. -/
theorem validation_aborts_run_witness :
    run ratesNone c8raws = .error RecError.nonChronologicalDate :=
  validation_aborts_run ratesNone c8raws RecError.nonChronologicalDate rfl

/-- C9: `compute_value(d, "USD100", "0%", income=True) = 100` and
`compute_value(d, "USD100", "10%", income=False) = 110` for every rate
table and date; in general a percentage fee is applied to the converted
amount, subtracted for income and added for expense. -/
theorem compute_value_spec :
    (∀ (rates : Rates) (d : String), compute_value rates d ("USD100") ("0%") true = .ok 100) ∧
    (∀ (rates : Rates) (d : String), compute_value rates d ("USD100") ("10%") false = .ok 110) ∧
    (∀ (rates : Rates) (d amt fee : String) (v p : ℚ),
       convert_to_usd rates d amt = .ok v → strLastIsPercent fee = true →
       parsePyFloat (dropLastStr fee) = some p →
       compute_value rates d amt fee true = .ok (v - v * p / 100) ∧
       compute_value rates d amt fee false = .ok (v + v * p / 100)) := by
  refine ⟨?_, ?_, ?_⟩
  · intro rates d
    simp [compute_value, convert_to_usd, pyStrip, pyStripList, matchCurrency, parseUnsigned,
          splitDots, digitsToNat, toUpperStr, strLastIsPercent, dropLastStr, parsePyFloat] <;>
      norm_num
  · intro rates d
    simp [compute_value, convert_to_usd, pyStrip, pyStripList, matchCurrency, parseUnsigned,
          splitDots, digitsToNat, toUpperStr, strLastIsPercent, dropLastStr, parsePyFloat] <;>
      norm_num
  · intro rates d amt fee v p hc hpct hp
    unfold compute_value
    simp [hc, hpct, hp]

/-- Witness for C9: a 20% fee on USD50 yields the income value
`50 - 50 * 20 / 100`. -/
theorem compute_value_spec_witness :
    compute_value ratesNone ("2024-01-01") ("USD50") ("20%") true = .ok (50 - 50 * 20 / 100) :=
  (compute_value_spec.2.2 ratesNone ("2024-01-01") ("USD50") ("20%") 50 20
    (by simp [convert_to_usd, pyStrip, pyStripList, matchCurrency, parseUnsigned,
              splitDots, digitsToNat, toUpperStr, ratesNone])
    rfl
    (by simp [parsePyFloat, pyStripList, parseUnsigned, splitDots, digitsToNat, dropLastStr])).1

/-- C10: at every point of a completed reconciliation the profit
aggregate equals the sum of all reference-ledger values (every prefix
of a completed run is itself a completed run), while `cash_flow` can
differ from that sum, as the one-entry material-EXPENSE run shows. -/
theorem profit_matches_ledger_sum :
    (∀ (es : List VEntry) (s : RecState), reconcile es = .ok s →
       s.profit = sumValues s.ref_value) ∧
    reconcile c10entries = .ok c10final ∧
    c10final.cash_flow ≠ sumValues c10final.ref_value := by
  refine ⟨?_, ?_, ?_⟩
  · intro es s h
    have hinv := ledger_sum_from es initState s h
    have h0 : initState.profit - sumValues initState.ref_value = 0 := by
      simp [initState, sumValues]
    linarith
  · simp [reconcile, reconcileFrom, step, initState, c10entries, c10final, dictFind, dictSet,
          dictContains, remove_suffix, AVAILABLE_ITEMS] <;> norm_num
  · simp [c10final, sumValues]

/-- Witness for C10: the material-EXPENSE run's final state satisfies
the profit/ledger-sum identity. -/
theorem profit_matches_ledger_sum_witness :
    c10final.profit = sumValues c10final.ref_value :=
  profit_matches_ledger_sum.1 c10entries c10final (by
    simp [reconcile, reconcileFrom, step, initState, c10entries, c10final, dictFind, dictSet,
          dictContains, remove_suffix, AVAILABLE_ITEMS] <;> norm_num)
